import Mathlib

/-!
Verification development for the WW2 video-automation repository.

Shallow embedding of the interactive Telegram collection core and the
video-production helpers found in `src/workflow_manager.py`,
`src/create_video.py` and `src/telegram_bot.py`.  Python strings are
modelled by Lean `String` (with explicit ASCII-level helpers mirroring
`str.strip`, `str.lower`, `str.upper`), Telegram updates by explicit
structures, the persisted cancellation-flag file by an
`Option CancelMarker` field of the session state, and the
`WorkflowCancelled` exception by an `Except Unit` result.
-/

namespace WW2

/-! ### Python string primitives (character-list model) -/

/-- Characters removed by Python `str.strip()` (ASCII whitespace). -/
def pyIsSpace (c : Char) : Bool :=
  c == ' ' || c == '\t' || c == '\n' || c == '\r' || c == '\u000B' || c == '\u000C'

/-- Python `str.strip()` on a character list: drop whitespace from both ends. -/
def stripList (l : List Char) : List Char :=
  (l.dropWhile pyIsSpace).rdropWhile pyIsSpace

/-- Python `str.strip()`. -/
def pyStrip (s : String) : String := String.mk (stripList s.data)

/-- Python `str.lower()` (ASCII). -/
def pyLower (s : String) : String := String.mk (s.data.map Char.toLower)

/-- Python `str.upper()` (ASCII). -/
def pyUpper (s : String) : String := String.mk (s.data.map Char.toUpper)

/-- Python `str.endswith(suf)`. -/
def pyEndsWith (s suf : String) : Bool := suf.data.isSuffixOf s.data

/-- Python `str.startswith(pre)`. -/
def pyStartsWith (s pre : String) : Bool := pre.data.isPrefixOf s.data

/-- Python `str.split(sep)` for a single-character separator. -/
def splitOnChar (sep : Char) : List Char → List (List Char)
  | [] => [[]]
  | c :: rest =>
    if c = sep then [] :: splitOnChar sep rest
    else
      match splitOnChar sep rest with
      | [] => [[c]]
      | l :: ls => (c :: l) :: ls

/-- Python format specifier `03d`: zero-pad to three digits. -/
def pad3 (n : Nat) : String :=
  if n < 10 then "00" ++ toString n
  else if n < 100 then "0" ++ toString n
  else toString n

/-! ### Telegram transport data model -/

/-- A document attachment of a Telegram message (the document field of a message).
`content` is the byte content obtained when the file is downloaded. -/
structure TgDocument where
  fileName : String
  mimeType : String
  fileId : String
  content : String
deriving DecidableEq, Repr

/-- A Telegram message as consumed by the repository: chat identifier,
optional text, and the optional media payloads that the code inspects
(`photo` and `video` store the file id of the payload). -/
structure TgMessage where
  chatId : String
  text : Option String
  photo : Option String
  video : Option String
  audio : Option String
  document : Option TgDocument
deriving DecidableEq, Repr

/-- One entry of a `getUpdates` result. -/
structure TgUpdate where
  updateId : Nat
  message : Option TgMessage
deriving DecidableEq, Repr

/-- The persisted cancellation marker (`productions/cancel_flag.json`).
`reason` is `none` when the record written contains no `reason` key. -/
structure CancelMarker where
  cancelled : Bool
  timestamp : String
  reason : Option String
deriving DecidableEq, Repr

/-- The mutable collector state shared by `TelegramCollector`
(workflow_manager.py) and `TelegramInterface` (create_video.py):
configured chat id, `update_offset` cursor, in-memory `cancelled` flag,
and the cancellation-marker file (`none` = file absent). -/
structure Session where
  chatId : String
  updateOffset : Nat
  cancelled : Bool
  markerFile : Option CancelMarker
deriving DecidableEq, Repr

/-- The observable part of a session: everything except the cursor. -/
def Session.obs (s : Session) : String × Bool × Option CancelMarker :=
  (s.chatId, s.cancelled, s.markerFile)

/-- workflow_manager.py line 106 / create_video.py line 86:
the recognised cancellation keywords (compared after strip+lower). -/
def cancelKeywords : List String := ["/cancel", "/cancelar", "cancel", "cancelar"]

/-- workflow_manager.py line 300: multi-part terminator keywords
(compared after strip+upper). -/
def terminatorKeywords : List String := ["PRONTO", "DONE", "FIM", "FINISH"]

/-- create_video.py line 501: skip keywords (compared after strip+lower). -/
def skipKeywords : List String := ["/skip", "skip", "/pular", "pular"]

/-! ### The message-offset cursor -/

/-- Telegram `getUpdates` semantics: with parameter `offset`, the server
returns exactly the not-yet-confirmed updates, i.e. those whose
`update_id` is at least `offset`, in ascending order. -/
def getUpdatesFrom (world : List TgUpdate) (offset : Nat) : List TgUpdate :=
  world.filter (fun u => offset ≤ u.updateId)

/-- workflow_manager.py lines 173-174 (also 95-96, 250-251): the loop
the loop setting update_offset to the update id plus one for each update. -/
def advanceOffset (offset : Nat) (updates : List TgUpdate) : Nat :=
  updates.foldl (fun _ u => u.updateId + 1) offset

/-- create_video.py lines 144-145 (`get_updates`): the cursor is set from
the final update of the batch: its update id plus one. -/
def advanceOffsetLast (offset : Nat) (updates : List TgUpdate) : Nat :=
  match updates.getLast? with
  | some u => u.updateId + 1
  | none => offset

/-! ### wait_for_message (workflow_manager.py lines 133-207) -/

/-- Outcome of scanning one batch inside `wait_for_message`. -/
inductive MsgEvent where
  | received (text : String)
  | cancelEvent
deriving DecidableEq, Repr

/-- workflow_manager.py lines 173-198: processing of one update inside
`wait_for_message`: advance the cursor, skip non-message updates and
messages from other chats, write the marker (without a `reason` key,
lines 186-191) and raise on a cancellation keyword, return non-empty
text as the answer. -/
def waitHandleUpdate (s : Session) (ts : String) (u : TgUpdate) :
    Session × Option MsgEvent :=
  let s1 : Session := { s with updateOffset := u.updateId + 1 }
  match u.message with
  | none => (s1, none)
  | some m =>
    if m.chatId ≠ s1.chatId then (s1, none)
    else
      let text := pyStrip (m.text.getD "")
      if cancelKeywords.contains (pyLower text) then
        ({ s1 with cancelled := true,
                   markerFile := some { cancelled := true, timestamp := ts,
                                        reason := none } },
         some .cancelEvent)
      else if text ≠ "" then (s1, some (.received text))
      else (s1, none)

/-- The inner `for update in updates` loop of `wait_for_message`:
stops at the first answer or cancellation. -/
def waitProcessUpdates (s : Session) (ts : String) :
    List TgUpdate → Session × Option MsgEvent
  | [] => (s, none)
  | u :: rest =>
    match waitHandleUpdate s ts u with
    | (s1, none) => waitProcessUpdates s1 ts rest
    | (s1, some ev) => (s1, some ev)

/-- workflow_manager.py lines 141-207: the polling/return skeleton of
`wait_for_message`.  Each schedule entry is one loop iteration: the
elapsed wall-clock seconds at its start and the batch `getUpdates`
returns.  The loop runs only while `elapsed < timeout`; a cancellation
raises `WorkflowCancelled` (modelled `Except.error ()`), an answer
returns the text, and exhausting the timeout returns `None` normally
(`Except.ok none`).  The reminder bookkeeping (lines 148-155) and the
periodic `check_for_cancel` call (lines 143-146) act on disjoint state
and are modelled separately by `reminderBuckets` and `cancelScan`. -/
def wait_for_message (timeoutSecs : Nat) (s : Session) (ts : String) :
    List (Nat × List TgUpdate) → Session × Except Unit (Option String)
  | [] => (s, .ok none)
  | (elapsed, batch) :: rest =>
    if elapsed < timeoutSecs then
      match waitProcessUpdates s ts batch with
      | (s1, none) => wait_for_message timeoutSecs s1 ts rest
      | (s1, some (.received t)) => (s1, .ok (some t))
      | (s1, some .cancelEvent) => (s1, .error ())
    else (s, .ok none)

/-- An update that yields no reaction in `wait_for_message`: either not
a message, or from a foreign chat, or with text that strips to empty. -/
def quietUpdate (chat : String) (u : TgUpdate) : Bool :=
  match u.message with
  | none => true
  | some m => m.chatId != chat || pyStrip (m.text.getD "") == ""

/-! ### check_for_cancel (workflow_manager.py lines 78-131 and
create_video.py lines 53-110) -/

/-- The shared scan loop of both `check_for_cancel` variants
(workflow_manager.py lines 93-127 = create_video.py lines 73-106):
advance the cursor per update, skip foreign chats, and on a cancellation
keyword set the flag and persist the marker with
reason set to the fixed user-requested-cancellation string. -/
def cancelScan (s : Session) (ts : String) : List TgUpdate → Bool × Session
  | [] => (false, s)
  | u :: rest =>
    let s1 : Session := { s with updateOffset := u.updateId + 1 }
    match u.message with
    | none => cancelScan s1 ts rest
    | some m =>
      if m.chatId ≠ s1.chatId then cancelScan s1 ts rest
      else if cancelKeywords.contains (pyLower (pyStrip (m.text.getD ""))) then
        let marker : CancelMarker :=
          { cancelled := true, timestamp := ts,
            reason := some "User requested cancellation" }
        (true, { s1 with cancelled := true, markerFile := some marker })
      else cancelScan s1 ts rest

/-- `TelegramCollector.check_for_cancel` (workflow_manager.py lines
78-131): always issues one `getUpdates` transport call (the third
component counts transport calls) and never consults the flag file. -/
def check_for_cancel_wm (s : Session) (ts : String) (batch : List TgUpdate) :
    Bool × Session × Nat :=
  let r := cancelScan s ts batch
  (r.1, r.2, 1)

/-- `TelegramInterface.check_for_cancel` (create_video.py lines 53-110):
checks the flag file first (lines 56-58) and short-circuits to `True`
with no transport call when it exists. -/
def check_for_cancel_cv (s : Session) (ts : String) (batch : List TgUpdate) :
    Bool × Session × Nat :=
  if s.markerFile.isSome then (true, s, 0)
  else
    let r := cancelScan s ts batch
    (r.1, r.2, 1)

/-! ### collect_script_multipart (workflow_manager.py lines 209-329) -/

/-- State of the multi-part script collection: the session plus the
`roteiro_partes` accumulator. -/
structure MultipartState where
  session : Session
  parts : List String
deriving DecidableEq, Repr

/-- workflow_manager.py lines 289-317: the text handling of one message
inside `collect_script_multipart`: empty text is skipped; a cancellation
keyword raises `WorkflowCancelled` WITHOUT writing the marker file
(line 297); a terminator keyword with a non-empty accumulator returns
the parts joined with newlines (lines 300-306, a terminator with an
empty accumulator only sends a warning); any other text is appended to
the accumulator. -/
def multipartText (st : MultipartState) (m : TgMessage) :
    MultipartState × Option (Except Unit String) :=
  let text := pyStrip (m.text.getD "")
  if text = "" then (st, none)
  else if cancelKeywords.contains (pyLower text) then (st, some (.error ()))
  else if terminatorKeywords.contains (pyUpper text) then
    if st.parts.isEmpty then (st, none)
    else (st, some (.ok (String.intercalate "\n" st.parts)))
  else ({ st with parts := st.parts ++ [text] }, none)

/-- workflow_manager.py lines 250-317: processing of one update inside
`collect_script_multipart`: advance the cursor, skip non-messages and
foreign chats, return the downloaded content of a `.txt` document
(lines 261-283, the success path), otherwise handle the text. -/
def multipartHandle (st : MultipartState) (u : TgUpdate) :
    MultipartState × Option (Except Unit String) :=
  let st1 : MultipartState :=
    { st with session := { st.session with updateOffset := u.updateId + 1 } }
  match u.message with
  | none => (st1, none)
  | some m =>
    if m.chatId ≠ st1.session.chatId then (st1, none)
    else
      match m.document with
      | some d =>
        if pyEndsWith d.fileName ".txt" then (st1, some (.ok d.content))
        else multipartText st1 m
      | none => multipartText st1 m

/-- workflow_manager.py lines 209-329: `collect_script_multipart` over
the flattened sequence of incoming updates.  When the updates are
exhausted (timeout, lines 325-329) the accumulated parts, if any, are
joined and returned, else `None`; a cancellation propagates as
`Except.error ()`. -/
def collect_script_multipart (st : MultipartState) :
    List TgUpdate → MultipartState × Except Unit (Option String)
  | [] =>
    (st, .ok (if st.parts.isEmpty then none
              else some (String.intercalate "\n" st.parts)))
  | u :: rest =>
    match multipartHandle st u with
    | (st1, none) => collect_script_multipart st1 rest
    | (st1, some (.ok t)) => (st1, .ok (some t))
    | (st1, some (.error _)) => (st1, .error ())

/-! ### wait_for_media (create_video.py lines 178-281) -/

/-- Media kind returned by `wait_for_media`. -/
inductive MediaKind where
  | image
  | video
deriving DecidableEq, Repr

/-- create_video.py line 269: `mime_type.split('/')[-1]`. -/
def mimeExt (mime : String) : String :=
  String.mk ((splitOnChar '/' mime.data).getLastD [])

/-- create_video.py lines 218-276: the `for update in updates` loop of
`wait_for_media`.  Note there is NO chat-identifier filter: every
message of the batch is inspected.  A cancellation keyword persists the
marker (without `reason`, lines 228-233) and raises; a photo, video or
image document is downloaded and returned with its inferred kind. -/
def mediaScanLoop (s : Session) (ts : String) (segNum : Nat) :
    List TgUpdate → Session × Option (Except Unit (String × MediaKind))
  | [] => (s, none)
  | u :: rest =>
    match u.message with
    | none => mediaScanLoop s ts segNum rest
    | some m =>
      let text := pyLower (pyStrip (m.text.getD ""))
      if cancelKeywords.contains text then
        ({ s with cancelled := true,
                  markerFile := some { cancelled := true, timestamp := ts,
                                       reason := none } },
         some (.error ()))
      else
        match m.photo with
        | some _ =>
          (s, some (.ok ("media/segment_" ++ pad3 segNum ++ ".jpg", .image)))
        | none =>
          match m.video with
          | some _ =>
            (s, some (.ok ("media/segment_" ++ pad3 segNum ++ ".mp4", .video)))
          | none =>
            match m.document with
            | some d =>
              if pyStartsWith d.mimeType "image/" then
                (s, some (.ok ("media/segment_" ++ pad3 segNum ++ "." ++
                               mimeExt d.mimeType, .image)))
              else mediaScanLoop s ts segNum rest
            | none => mediaScanLoop s ts segNum rest

/-- One poll round of `wait_for_media` (create_video.py line 216 plus
the loop): `get_updates` advances the cursor past the whole batch, then
the batch is scanned. -/
def wait_for_media_round (s : Session) (ts : String) (segNum : Nat)
    (batch : List TgUpdate) : Session × Option (Except Unit (String × MediaKind)) :=
  mediaScanLoop { s with updateOffset := advanceOffsetLast s.updateOffset batch }
    ts segNum batch

/-! ### Reminder bookkeeping (workflow_manager.py lines 148-155, and
identically create_video.py lines 482-489, 588-595 with interval 120
and lines 207-214, 962-969 with interval 180) -/

/-- The `last_reminder` bookkeeping of a waiting loop: for each poll at
`elapsed` whole seconds, a reminder is sent iff
`int(elapsed) // interval > last_reminder`, after which `last_reminder`
is set to that bucket index.  Returns the list of bucket indices at
which reminders were sent, in order. -/
def reminderBuckets (interval : Nat) : Nat → List Nat → List Nat
  | _, [] => []
  | last, e :: rest =>
    if e / interval > last then (e / interval) :: reminderBuckets interval (e / interval) rest
    else reminderBuckets interval last rest

/-! ### segment_audio (create_video.py lines 329-371) -/

/-- One entry of the list returned by `segment_audio` (times kept in
milliseconds; the code divides them by 1000 for display). -/
structure AudioSegInfo where
  index : Nat
  path : String
  startMs : Nat
  endMs : Nat
deriving DecidableEq, Repr

/-- create_video.py lines 329-371: split audio of `totalMs` milliseconds
into chunks of `segmentMs` milliseconds:
`num_segments = ceil(total / segment_duration)`, and segment `i` (from 0)
covers `[i * segment_duration, min((i+1) * segment_duration, total))`
and is numbered `i + 1`. -/
def segment_audio (videoId : String) (totalMs : Nat) (segmentMs : Nat) :
    List AudioSegInfo :=
  let numSegments := (totalMs + segmentMs - 1) / segmentMs
  (List.range numSegments).map fun i =>
    { index := i + 1
      path := "segments/" ++ videoId ++ "_segment_" ++ pad3 (i + 1) ++ ".mp3"
      startMs := i * segmentMs
      endMs := min ((i + 1) * segmentMs) totalMs }

/-! ### create_video (create_video.py lines 669-738 and 740-930) -/

/-- A reference to one exported audio segment, as consumed by
`create_video`. -/
structure AudioSegRef where
  path : String
deriving DecidableEq, Repr

/-- One entry of the collected media list. -/
structure MediaInfo where
  path : String
  kind : MediaKind
deriving DecidableEq, Repr

/-- One processed per-segment clip (media resized/cropped, audio set,
fades applied at the first and last position). -/
structure Clip where
  mediaPath : String
  kind : MediaKind
  audioPath : String
  fadeIn : Bool
  fadeOut : Bool
deriving DecidableEq, Repr

/-- The per-segment clip construction shared verbatim by both textual
definitions of `create_video` (lines 673-738 = lines 744-809):
`zip(audio_segments, media_list)` with fade-in on segment 0 and
fade-out on segment `len(audio_segments) - 1`. -/
def buildClips (audioSegments : List AudioSegRef) (mediaList : List MediaInfo) :
    List Clip :=
  (audioSegments.zip mediaList).enum.map fun p =>
    { mediaPath := p.2.2.path
      kind := p.2.2.kind
      audioPath := p.2.1.path
      fadeIn := p.1 == 0
      fadeOut := p.1 == audioSegments.length - 1 }

/-- The argument record of `VideoProducer.create_video`. -/
structure CreateVideoArgs where
  videoId : String
  audioSegments : List AudioSegRef
  mediaList : List MediaInfo
  backgroundMusic : Option String
  channelLogo : Option String

/-- The assembled final video of the second definition: concatenated
clips, optional composited logo, optional mixed background music. -/
structure FinalVideo where
  clips : List Clip
  logo : Option String
  music : Option String
deriving DecidableEq, Repr

/-- First textual definition of `create_video` (create_video.py lines
669-738): builds the per-segment clips and then falls off the end of
the function body — no concatenation, no export and no return
statement, so a call would return `None`. -/
def create_video_v1 (args : CreateVideoArgs) : Option String :=
  let _clips := buildClips args.audioSegments args.mediaList
  none

/-- Second textual definition of `create_video` (create_video.py lines
740-930): builds the clips, concatenates them, optionally composites
the channel logo and mixes the background music, renders
`output/<video_id>.mp4` and returns that path. -/
def create_video_v2 (args : CreateVideoArgs) : Option String :=
  let clips := buildClips args.audioSegments args.mediaList
  let _render : FinalVideo :=
    { clips := clips, logo := args.channelLogo, music := args.backgroundMusic }
  some ("output/" ++ args.videoId ++ ".mp4")

/-- Python class-body semantics: `def` statements execute in order and
each assigns into the class dictionary, so a later `def` under the same
name overwrites an earlier one.  The body of `VideoProducer` defines
`create_video` twice (lines 669 and 740). -/
def videoProducerDefs : List (String × (CreateVideoArgs → Option String)) :=
  [("create_video", create_video_v1), ("create_video", create_video_v2)]

/-- Dictionary lookup after executing the class body: the last
assignment under a name wins. -/
def lookupMethod (name : String) : Option (CreateVideoArgs → Option String) :=
  videoProducerDefs.foldl (fun acc nf => if nf.1 = name then some nf.2 else acc) none

/-! ### parse_production_message (telegram_bot.py lines 94-133) -/

/-- The `current_section` values of `parse_production_message`. -/
inductive MsgSection where
  | title
  | description
  | tags
  | script
deriving DecidableEq, Repr

/-- The dictionary built by `parse_production_message`; it always has
exactly these four keys, `tags` always a list (telegram_bot.py lines
98-103). -/
structure ParsedProduction where
  script : List Char
  title : List Char
  description : List Char
  tags : List (List Char)
deriving DecidableEq, Repr

/-- telegram_bot.py lines 98-103: the initial dictionary. -/
def emptyParsed : ParsedProduction :=
  { script := [], title := [], description := [], tags := [] }

/-- Python `str.upper()` on a character list. -/
def upperList (l : List Char) : List Char := l.map Char.toUpper

/-- A line that (after stripping, case-insensitively) starts one of the
four sections. -/
def isHeaderLine (rawLine : List Char) : Bool :=
  let up := upperList (stripList rawLine)
  "TITLE:".data.isPrefixOf up || "DESCRIPTION:".data.isPrefixOf up ||
    "TAGS:".data.isPrefixOf up || "SCRIPT:".data.isPrefixOf up

/-- telegram_bot.py lines 107-127: processing of one line: a section
header (matched case-insensitively on the stripped line) opens a
section and stores the stripped remainder of the line (`TAGS:` splits
on commas and strips each part); any other line is appended (with a
newline) to the script or description when that section is open, and
discarded otherwise. -/
def parseLine (st : Option MsgSection × ParsedProduction) (rawLine : List Char) :
    Option MsgSection × ParsedProduction :=
  let line := stripList rawLine
  let up := upperList line
  let d := st.2
  if "TITLE:".data.isPrefixOf up then
    (some .title, { d with title := stripList (line.drop 6) })
  else if "DESCRIPTION:".data.isPrefixOf up then
    (some .description, { d with description := stripList (line.drop 12) })
  else if "TAGS:".data.isPrefixOf up then
    (some .tags,
     { d with tags := (splitOnChar ',' (stripList (line.drop 5))).map stripList })
  else if "SCRIPT:".data.isPrefixOf up then
    (some .script, { d with script := stripList (line.drop 7) })
  else
    match st.1 with
    | some .script => (st.1, { d with script := d.script ++ '\n' :: line })
    | some .description => (st.1, { d with description := d.description ++ '\n' :: line })
    | _ => st

/-- telegram_bot.py lines 94-133: `parse_production_message`: strip the
text, split it on newlines, fold `parseLine` over the lines starting
with no open section, and finally strip the script and description. -/
def parse_production_message (text : List Char) : ParsedProduction :=
  let lines := splitOnChar '\n' (stripList text)
  let r := lines.foldl parseLine (none, emptyParsed)
  { r.2 with script := stripList r.2.script, description := stripList r.2.description }

/-! ### Concrete example values used by several witnesses -/

/-- A fresh session configured for chat "7". -/
def exSession : Session :=
  { chatId := "7", updateOffset := 0, cancelled := false, markerFile := none }

/-- A text message in chat "7". -/
def exTextMsg (t : String) : TgMessage :=
  { chatId := "7", text := some t, photo := none, video := none,
    audio := none, document := none }

/-- A text message in a foreign chat "999". -/
def exForeignMsg (t : String) : TgMessage :=
  { chatId := "999", text := some t, photo := none, video := none,
    audio := none, document := none }

/-! ## Theorems -/

/-! ### Cursor lemmas -/

theorem advanceOffset_cons (o : Nat) (a : TgUpdate) (t : List TgUpdate) :
    advanceOffset o (a :: t) = advanceOffset (a.updateId + 1) t := rfl

theorem advanceOffset_bounds (us : List TgUpdate) (o : Nat)
    (hmono : us.Pairwise (fun a b => a.updateId < b.updateId))
    (hge : ∀ u ∈ us, o ≤ u.updateId) :
    o ≤ advanceOffset o us ∧ ∀ u ∈ us, u.updateId < advanceOffset o us := by
  induction us generalizing o with
  | nil => exact ⟨Nat.le_refl o, by simp⟩
  | cons a t ih =>
    have hpw := List.pairwise_cons.mp hmono
    have ih2 := ih (a.updateId + 1) hpw.2 (fun u hu => hpw.1 u hu)
    rw [advanceOffset_cons]
    refine ⟨Nat.le_trans (Nat.le_succ_of_le (hge a (List.mem_cons_self a t))) ih2.1, ?_⟩
    intro u hu
    rcases List.mem_cons.mp hu with h | h
    · subst h
      exact Nat.lt_of_lt_of_le (Nat.lt_succ_self _) ih2.1
    · exact ih2.2 u h

theorem advanceOffsetLast_eq (o : Nat) (us : List TgUpdate) :
    advanceOffsetLast o us = advanceOffset o us := by
  induction us generalizing o with
  | nil => rfl
  | cons a t ih =>
    cases t with
    | nil => rfl
    | cons b t2 =>
      rw [advanceOffset_cons]
      rw [← ih (a.updateId + 1)]
      simp [advanceOffsetLast, List.getLast?]

/-- C1: during a session the `update_offset` cursor is monotonically
non-decreasing across every polling operation, and an update once passed
by the cursor is never delivered again by a later `getUpdates` call:
for a batch fetched at cursor `o` (updates with id ≥ `o`, ascending), the
new cursor is at least `o`, strictly exceeds every delivered update id,
and no delivered update reappears in any later fetch; moreover the
batch-level cursor rule of `TelegramInterface.get_updates` agrees with
the per-update rule of the `TelegramCollector` loops. -/
theorem cursor_monotone_no_redelivery
    (world₁ world₂ : List TgUpdate) (o : Nat)
    (hmono : world₁.Pairwise (fun a b => a.updateId < b.updateId)) :
    o ≤ advanceOffset o (getUpdatesFrom world₁ o) ∧
    (∀ u ∈ getUpdatesFrom world₁ o,
      u.updateId < advanceOffset o (getUpdatesFrom world₁ o)) ∧
    (∀ u ∈ getUpdatesFrom world₁ o,
      u ∉ getUpdatesFrom world₂ (advanceOffset o (getUpdatesFrom world₁ o))) ∧
    advanceOffsetLast o (getUpdatesFrom world₁ o) =
      advanceOffset o (getUpdatesFrom world₁ o) := by
  have hmono2 : (getUpdatesFrom world₁ o).Pairwise
      (fun a b => a.updateId < b.updateId) := hmono.filter _
  have hge : ∀ u ∈ getUpdatesFrom world₁ o, o ≤ u.updateId := by
    intro u hu
    exact of_decide_eq_true (List.mem_filter.mp hu).2
  obtain ⟨h1, h2⟩ := advanceOffset_bounds (getUpdatesFrom world₁ o) o hmono2 hge
  refine ⟨h1, h2, ?_, advanceOffsetLast_eq o _⟩
  intro u hu hmem
  have hge2 : advanceOffset o (getUpdatesFrom world₁ o) ≤ u.updateId :=
    of_decide_eq_true (List.mem_filter.mp hmem).2
  exact Nat.not_lt.mpr hge2 (h2 u hu)

theorem cursor_monotone_no_redelivery_witness :
    ([⟨1, none⟩, ⟨3, none⟩] : List TgUpdate).Pairwise
      (fun a b => a.updateId < b.updateId) ∧
    (0 ≤ advanceOffset 0 (getUpdatesFrom [⟨1, none⟩, ⟨3, none⟩] 0) ∧
    (∀ u ∈ getUpdatesFrom [⟨1, none⟩, ⟨3, none⟩] 0,
      u.updateId < advanceOffset 0 (getUpdatesFrom [⟨1, none⟩, ⟨3, none⟩] 0)) ∧
    (∀ u ∈ getUpdatesFrom [⟨1, none⟩, ⟨3, none⟩] 0,
      u ∉ getUpdatesFrom [⟨1, none⟩, ⟨3, none⟩, ⟨7, none⟩]
        (advanceOffset 0 (getUpdatesFrom [⟨1, none⟩, ⟨3, none⟩] 0))) ∧
    advanceOffsetLast 0 (getUpdatesFrom [⟨1, none⟩, ⟨3, none⟩] 0) =
      advanceOffset 0 (getUpdatesFrom [⟨1, none⟩, ⟨3, none⟩] 0)) :=
  ⟨by decide,
   cursor_monotone_no_redelivery [⟨1, none⟩, ⟨3, none⟩]
     [⟨1, none⟩, ⟨3, none⟩, ⟨7, none⟩] 0 (by decide)⟩

/-! ### wait_for_message lemmas -/

theorem waitHandleUpdate_chatId (s : Session) (ts : String) (u : TgUpdate) :
    (waitHandleUpdate s ts u).1.chatId = s.chatId := by
  unfold waitHandleUpdate
  cases u.message with
  | none => rfl
  | some m =>
    dsimp only
    split_ifs <;> rfl

theorem waitHandleUpdate_offset_irrel (s : Session) (ts : String) (o : Nat)
    (u : TgUpdate) :
    waitHandleUpdate { s with updateOffset := o } ts u = waitHandleUpdate s ts u := by
  unfold waitHandleUpdate
  cases u.message with
  | none => rfl
  | some m => dsimp only

theorem waitHandleUpdate_foreign (s : Session) (ts : String) (u : TgUpdate)
    (m : TgMessage) (hm : u.message = some m) (hc : m.chatId ≠ s.chatId) :
    waitHandleUpdate s ts u = ({ s with updateOffset := u.updateId + 1 }, none) := by
  unfold waitHandleUpdate
  rw [hm]
  dsimp only
  rw [if_pos hc]

theorem waitHandleUpdate_cancel (s : Session) (ts : String) (u : TgUpdate) :
    (waitHandleUpdate s ts u).2 = some .cancelEvent →
    (waitHandleUpdate s ts u).1.cancelled = true ∧
    (waitHandleUpdate s ts u).1.markerFile =
      some { cancelled := true, timestamp := ts, reason := none } := by
  unfold waitHandleUpdate
  cases u.message with
  | none =>
    intro h
    exact absurd h (by simp)
  | some m =>
    dsimp only
    split_ifs with h1 h2 h3
    · intro h; exact absurd h (by simp)
    · intro _; exact ⟨rfl, rfl⟩
    · intro h; exact absurd h (by simp)
    · intro h; exact absurd h (by simp)

theorem waitProcessUpdates_cancel (ts : String) (us : List TgUpdate) :
    ∀ s : Session, (waitProcessUpdates s ts us).2 = some .cancelEvent →
      (waitProcessUpdates s ts us).1.cancelled = true ∧
      (waitProcessUpdates s ts us).1.markerFile =
        some { cancelled := true, timestamp := ts, reason := none } := by
  induction us with
  | nil =>
    intro s h
    exact absurd h (by simp [waitProcessUpdates])
  | cons u rest ih =>
    intro s
    rw [waitProcessUpdates]
    rcases hh : waitHandleUpdate s ts u with ⟨s1, ev⟩
    cases ev with
    | none =>
      dsimp only
      exact ih s1
    | some e =>
      dsimp only
      intro h
      have he : e = MsgEvent.cancelEvent := by injection h
      subst he
      have hc := waitHandleUpdate_cancel s ts u (by rw [hh])
      rw [hh] at hc
      exact hc

/-! ### check_for_cancel lemmas -/

theorem cancelScan_true (ts : String) (us : List TgUpdate) :
    ∀ s : Session, (cancelScan s ts us).1 = true →
      (cancelScan s ts us).2.cancelled = true ∧
      (cancelScan s ts us).2.markerFile =
        some { cancelled := true, timestamp := ts,
               reason := some "User requested cancellation" } := by
  induction us with
  | nil =>
    intro s h
    exact absurd h (by simp [cancelScan])
  | cons u rest ih =>
    intro s
    rw [cancelScan]
    cases u.message with
    | none =>
      dsimp only
      exact ih _
    | some m =>
      dsimp only
      split_ifs with h1 h2
      · exact ih _
      · intro _; exact ⟨rfl, rfl⟩
      · exact ih _

/-- C3 counterexample: the claim covers `TelegramCollector.check_for_cancel`
(workflow_manager.py), which never consults the marker file: from a state
where the marker is already persisted, a call with no new cancel message
performs one `getUpdates` transport call and returns `False` — not `true`
with zero transport calls as claimed. -/
theorem check_for_cancel_wm_not_idempotent :
    check_for_cancel_wm
      { chatId := "7", updateOffset := 5, cancelled := true,
        markerFile := some { cancelled := true, timestamp := "t0",
                             reason := some "User requested cancellation" } }
      "t1" [] =
    (false,
     { chatId := "7", updateOffset := 5, cancelled := true,
       markerFile := some { cancelled := true, timestamp := "t0",
                            reason := some "User requested cancellation" } },
     1) := rfl

/-- C3 (amended): `TelegramInterface.check_for_cancel` (create_video.py)
is idempotent once a marker exists: it short-circuits to `true`,
performs zero `getUpdates` transport calls and leaves the session
(cursor, flag, marker file) unchanged, and a second call behaves the
same; the workflow_manager variant lacks this property (see the
counterexample). -/
theorem check_for_cancel_cv_idempotent (s : Session) (ts ts2 : String)
    (batch batch2 : List TgUpdate) (h : s.markerFile.isSome = true) :
    check_for_cancel_cv s ts batch = (true, s, 0) ∧
    check_for_cancel_cv s ts2 batch2 = (true, s, 0) := by
  unfold check_for_cancel_cv
  rw [if_pos h, if_pos h]
  exact ⟨rfl, rfl⟩

theorem check_for_cancel_cv_idempotent_witness :
    (({ chatId := "7", updateOffset := 5, cancelled := true,
        markerFile := some { cancelled := true, timestamp := "t0",
                             reason := some "User requested cancellation" } }
       : Session).markerFile.isSome = true) ∧
    (check_for_cancel_cv
      { chatId := "7", updateOffset := 5, cancelled := true,
        markerFile := some { cancelled := true, timestamp := "t0",
                             reason := some "User requested cancellation" } }
      "t1" [] =
     (true,
      { chatId := "7", updateOffset := 5, cancelled := true,
        markerFile := some { cancelled := true, timestamp := "t0",
                             reason := some "User requested cancellation" } },
      0) ∧
     check_for_cancel_cv
      { chatId := "7", updateOffset := 5, cancelled := true,
        markerFile := some { cancelled := true, timestamp := "t0",
                             reason := some "User requested cancellation" } }
      "t2" [⟨9, none⟩] =
     (true,
      { chatId := "7", updateOffset := 5, cancelled := true,
        markerFile := some { cancelled := true, timestamp := "t0",
                             reason := some "User requested cancellation" } },
      0)) :=
  ⟨rfl, check_for_cancel_cv_idempotent _ "t1" "t2" [] [⟨9, none⟩] rfl⟩

/-! ### collect_script_multipart lemmas -/

theorem multipartText_session (st : MultipartState) (m : TgMessage) :
    (multipartText st m).1.session = st.session := by
  unfold multipartText
  dsimp only
  split_ifs <;> rfl

theorem multipartHandle_session (st : MultipartState) (u : TgUpdate) :
    (multipartHandle st u).1.session =
      { st.session with updateOffset := u.updateId + 1 } := by
  unfold multipartHandle
  cases u.message with
  | none => rfl
  | some m =>
    dsimp only
    split_ifs with h1
    · rfl
    · cases m.document with
      | none => exact multipartText_session _ m
      | some d =>
        dsimp only
        split_ifs with h2
        · rfl
        · exact multipartText_session _ m

theorem collect_script_multipart_marker (us : List TgUpdate) :
    ∀ st : MultipartState,
      (collect_script_multipart st us).1.session.markerFile = st.session.markerFile ∧
      (collect_script_multipart st us).1.session.cancelled = st.session.cancelled := by
  induction us with
  | nil => intro st; exact ⟨rfl, rfl⟩
  | cons u rest ih =>
    intro st
    rw [collect_script_multipart]
    rcases hh : multipartHandle st u with ⟨st1, ev⟩
    have hs : st1.session = { st.session with updateOffset := u.updateId + 1 } := by
      have h2 := multipartHandle_session st u
      rw [hh] at h2
      exact h2
    cases ev with
    | none =>
      dsimp only
      obtain ⟨ha, hb⟩ := ih st1
      rw [ha, hb, hs]
      exact ⟨rfl, rfl⟩
    | some e =>
      cases e with
      | ok t =>
        dsimp only
        rw [hs]
        exact ⟨rfl, rfl⟩
      | error e2 =>
        dsimp only
        rw [hs]
        exact ⟨rfl, rfl⟩

/-- C2 counterexample: a cancellation keyword observed while collecting
script parts (`collect_script_multipart`, workflow_manager.py line 297)
terminates the collection cancelled, yet NO cancellation-marker file is
written afterwards, so the claimed persisted marker (with a timestamp
and a reason) does not exist. -/
theorem multipart_cancel_writes_no_marker :
    (collect_script_multipart { session := exSession, parts := [] }
      [⟨1, some (exTextMsg "/cancel")⟩]).2 = .error () ∧
    (collect_script_multipart { session := exSession, parts := [] }
      [⟨1, some (exTextMsg "/cancel")⟩]).1.session.markerFile = none :=
  ⟨rfl, rfl⟩

/-- C2 (amended): whenever a cancellation keyword is observed, the
session terminates cancelled, but the persisted marker differs by path:
`wait_for_message` (and the media waits) persist a marker with
`cancelled=true` and a timestamp but NO reason field;
`check_for_cancel` persists a marker with `cancelled=true`, a timestamp
and the fixed user-requested-cancellation reason string; and
`collect_script_multipart` raises the cancellation without writing any
marker at all (the marker file is exactly what it was before). -/
theorem cancellation_marker_per_path (ts : String) (us : List TgUpdate)
    (s : Session) (st : MultipartState) :
    ((waitProcessUpdates s ts us).2 = some .cancelEvent →
      (waitProcessUpdates s ts us).1.cancelled = true ∧
      (waitProcessUpdates s ts us).1.markerFile =
        some { cancelled := true, timestamp := ts, reason := none }) ∧
    ((cancelScan s ts us).1 = true →
      (cancelScan s ts us).2.cancelled = true ∧
      (cancelScan s ts us).2.markerFile =
        some { cancelled := true, timestamp := ts,
               reason := some "User requested cancellation" }) ∧
    ((collect_script_multipart st us).2 = .error () →
      (collect_script_multipart st us).1.session.markerFile = st.session.markerFile) :=
  ⟨waitProcessUpdates_cancel ts us s, cancelScan_true ts us s,
   fun _ => (collect_script_multipart_marker us st).1⟩

theorem cancellation_marker_per_path_witness :
    ((waitProcessUpdates exSession "t0" [⟨1, some (exTextMsg "/cancel")⟩]).1.cancelled
        = true ∧
     (waitProcessUpdates exSession "t0" [⟨1, some (exTextMsg "/cancel")⟩]).1.markerFile
        = some { cancelled := true, timestamp := "t0", reason := none }) ∧
    ((cancelScan exSession "t0" [⟨1, some (exTextMsg "/cancel")⟩]).2.cancelled
        = true ∧
     (cancelScan exSession "t0" [⟨1, some (exTextMsg "/cancel")⟩]).2.markerFile
        = some { cancelled := true, timestamp := "t0",
                 reason := some "User requested cancellation" }) ∧
    ((collect_script_multipart { session := exSession, parts := [] }
        [⟨1, some (exTextMsg "/cancel")⟩]).1.session.markerFile
        = ({ session := exSession, parts := [] } : MultipartState).session.markerFile) :=
  ⟨(cancellation_marker_per_path "t0" [⟨1, some (exTextMsg "/cancel")⟩]
      exSession { session := exSession, parts := [] }).1 rfl,
   (cancellation_marker_per_path "t0" [⟨1, some (exTextMsg "/cancel")⟩]
      exSession { session := exSession, parts := [] }).2.1 rfl,
   (cancellation_marker_per_path "t0" [⟨1, some (exTextMsg "/cancel")⟩]
      exSession { session := exSession, parts := [] }).2.2 rfl⟩

/-! ### Foreign-chat invariance lemmas -/

theorem waitProcessUpdates_offset (ts : String) (us : List TgUpdate)
    (s : Session) (o : Nat) :
    (waitProcessUpdates { s with updateOffset := o } ts us).2 =
      (waitProcessUpdates s ts us).2 ∧
    (waitProcessUpdates { s with updateOffset := o } ts us).1.obs =
      (waitProcessUpdates s ts us).1.obs := by
  cases us with
  | nil => exact ⟨rfl, rfl⟩
  | cons u rest =>
    simp only [waitProcessUpdates, waitHandleUpdate_offset_irrel]
    exact ⟨trivial, trivial⟩

theorem waitProcessUpdates_foreign (ts : String) (us₁ : List TgUpdate) :
    ∀ (s : Session) (us₂ : List TgUpdate) (u : TgUpdate) (m : TgMessage),
      u.message = some m → m.chatId ≠ s.chatId →
      (waitProcessUpdates s ts (us₁ ++ u :: us₂)).2 =
        (waitProcessUpdates s ts (us₁ ++ us₂)).2 ∧
      (waitProcessUpdates s ts (us₁ ++ u :: us₂)).1.obs =
        (waitProcessUpdates s ts (us₁ ++ us₂)).1.obs := by
  induction us₁ with
  | nil =>
    intro s us₂ u m hm hc
    simp only [List.nil_append]
    rw [waitProcessUpdates, waitHandleUpdate_foreign s ts u m hm hc]
    dsimp only
    exact waitProcessUpdates_offset ts us₂ s (u.updateId + 1)
  | cons w t ih =>
    intro s us₂ u m hm hc
    simp only [List.cons_append, waitProcessUpdates]
    rcases hh : waitHandleUpdate s ts w with ⟨s1, ev⟩
    have hcs : s1.chatId = s.chatId := by
      have h2 := waitHandleUpdate_chatId s ts w
      rw [hh] at h2
      exact h2
    cases ev with
    | none =>
      dsimp only
      exact ih s1 us₂ u m hm (by rw [hcs]; exact hc)
    | some e => exact ⟨rfl, rfl⟩

theorem multipartHandle_offset_irrel (st : MultipartState) (o : Nat) (u : TgUpdate) :
    multipartHandle { st with session := { st.session with updateOffset := o } } u =
      multipartHandle st u := by
  unfold multipartHandle
  cases u.message with
  | none => rfl
  | some m => dsimp only

theorem multipartHandle_foreign (st : MultipartState) (u : TgUpdate)
    (m : TgMessage) (hm : u.message = some m) (hc : m.chatId ≠ st.session.chatId) :
    multipartHandle st u =
      ({ st with session := { st.session with updateOffset := u.updateId + 1 } },
       none) := by
  unfold multipartHandle
  rw [hm]
  dsimp only
  rw [if_pos hc]

theorem collect_script_multipart_offset (us : List TgUpdate)
    (st : MultipartState) (o : Nat) :
    (collect_script_multipart
        { st with session := { st.session with updateOffset := o } } us).2 =
      (collect_script_multipart st us).2 ∧
    (collect_script_multipart
        { st with session := { st.session with updateOffset := o } } us).1.session.obs =
      (collect_script_multipart st us).1.session.obs ∧
    (collect_script_multipart
        { st with session := { st.session with updateOffset := o } } us).1.parts =
      (collect_script_multipart st us).1.parts := by
  cases us with
  | nil => exact ⟨rfl, rfl, rfl⟩
  | cons u rest =>
    simp only [collect_script_multipart, multipartHandle_offset_irrel]
    exact ⟨trivial, trivial, trivial⟩

theorem collect_script_multipart_foreign (us₁ : List TgUpdate) :
    ∀ (st : MultipartState) (us₂ : List TgUpdate) (u : TgUpdate) (m : TgMessage),
      u.message = some m → m.chatId ≠ st.session.chatId →
      (collect_script_multipart st (us₁ ++ u :: us₂)).2 =
        (collect_script_multipart st (us₁ ++ us₂)).2 ∧
      (collect_script_multipart st (us₁ ++ u :: us₂)).1.session.obs =
        (collect_script_multipart st (us₁ ++ us₂)).1.session.obs ∧
      (collect_script_multipart st (us₁ ++ u :: us₂)).1.parts =
        (collect_script_multipart st (us₁ ++ us₂)).1.parts := by
  induction us₁ with
  | nil =>
    intro st us₂ u m hm hc
    simp only [List.nil_append]
    rw [collect_script_multipart, multipartHandle_foreign st u m hm hc]
    dsimp only
    exact collect_script_multipart_offset us₂ st (u.updateId + 1)
  | cons w t ih =>
    intro st us₂ u m hm hc
    simp only [List.cons_append, collect_script_multipart]
    rcases hh : multipartHandle st w with ⟨st1, ev⟩
    have hcs : st1.session.chatId = st.session.chatId := by
      have h2 := multipartHandle_session st w
      rw [hh] at h2
      rw [h2]
    cases ev with
    | none =>
      dsimp only
      exact ih st1 us₂ u m hm (by rw [hcs]; exact hc)
    | some e =>
      cases e with
      | ok t2 => exact ⟨rfl, rfl, rfl⟩
      | error e2 => exact ⟨rfl, rfl, rfl⟩

/-- C4 counterexample: `wait_for_media` (create_video.py lines 216-277)
has no chat-identifier filter: a photo from a foreign chat (id "999",
while the session is configured for chat "7") IS consumed as the media
answer and downloaded to the segment path, contradicting the claim that
for every wait operation foreign-chat messages are never consumed and
never downloaded. -/
theorem wait_for_media_consumes_foreign_chat :
    wait_for_media_round exSession "t0" 1
      [⟨5, some { chatId := "999", text := none, photo := some "fid",
                  video := none, audio := none, document := none }⟩] =
    ({ exSession with updateOffset := 6 },
     some (.ok ("media/segment_001.jpg", .image))) := rfl

/-- C4 (amended): for the chat-filtered waits (`wait_for_message` and
`collect_script_multipart`) a message from a foreign chat has no effect
on the result: it is never consumed as an answer, never triggers
cancellation, and only advances the cursor, so two runs differing only
in such foreign-chat messages produce the same collected answer and the
same observable session state.  This does NOT hold for `wait_for_media`
and the music/logo/thumbnail waits, which lack the chat filter (see the
counterexample). -/
theorem foreign_chat_invariance (ts : String) (s : Session) (st : MultipartState)
    (us₁ us₂ : List TgUpdate) (u : TgUpdate) (m : TgMessage)
    (hm : u.message = some m) (hcs : m.chatId ≠ s.chatId)
    (hcm : m.chatId ≠ st.session.chatId) :
    waitHandleUpdate s ts u = ({ s with updateOffset := u.updateId + 1 }, none) ∧
    ((waitProcessUpdates s ts (us₁ ++ u :: us₂)).2 =
        (waitProcessUpdates s ts (us₁ ++ us₂)).2 ∧
      (waitProcessUpdates s ts (us₁ ++ u :: us₂)).1.obs =
        (waitProcessUpdates s ts (us₁ ++ us₂)).1.obs) ∧
    ((collect_script_multipart st (us₁ ++ u :: us₂)).2 =
        (collect_script_multipart st (us₁ ++ us₂)).2 ∧
      (collect_script_multipart st (us₁ ++ u :: us₂)).1.parts =
        (collect_script_multipart st (us₁ ++ us₂)).1.parts) :=
  ⟨waitHandleUpdate_foreign s ts u m hm hcs,
   waitProcessUpdates_foreign ts us₁ s us₂ u m hm hcs,
   ⟨(collect_script_multipart_foreign us₁ st us₂ u m hm hcm).1,
    (collect_script_multipart_foreign us₁ st us₂ u m hm hcm).2.2⟩⟩

theorem foreign_chat_invariance_witness :
    (waitHandleUpdate exSession "t0" ⟨1, some (exForeignMsg "spam")⟩ =
      ({ exSession with updateOffset := 2 }, none)) ∧
    ((waitProcessUpdates exSession "t0"
        ([] ++ ⟨1, some (exForeignMsg "spam")⟩ :: [⟨2, some (exTextMsg "hello")⟩])).2 =
        (waitProcessUpdates exSession "t0" ([] ++ [⟨2, some (exTextMsg "hello")⟩])).2 ∧
      (waitProcessUpdates exSession "t0"
        ([] ++ ⟨1, some (exForeignMsg "spam")⟩ :: [⟨2, some (exTextMsg "hello")⟩])).1.obs =
        (waitProcessUpdates exSession "t0" ([] ++ [⟨2, some (exTextMsg "hello")⟩])).1.obs) ∧
    ((collect_script_multipart { session := exSession, parts := [] }
        ([] ++ ⟨1, some (exForeignMsg "spam")⟩ :: [⟨2, some (exTextMsg "hello")⟩])).2 =
        (collect_script_multipart { session := exSession, parts := [] }
          ([] ++ [⟨2, some (exTextMsg "hello")⟩])).2 ∧
      (collect_script_multipart { session := exSession, parts := [] }
        ([] ++ ⟨1, some (exForeignMsg "spam")⟩ :: [⟨2, some (exTextMsg "hello")⟩])).1.parts =
        (collect_script_multipart { session := exSession, parts := [] }
          ([] ++ [⟨2, some (exTextMsg "hello")⟩])).1.parts) :=
  foreign_chat_invariance "t0" exSession { session := exSession, parts := [] }
    [] [⟨2, some (exTextMsg "hello")⟩] ⟨1, some (exForeignMsg "spam")⟩
    (exForeignMsg "spam") rfl (by decide) (by decide)

/-! ### Multi-part accumulation (C6) -/

/-- C6: in multi-part script collection, each non-terminator,
non-cancellation text message from the configured chat is appended to
the accumulator and waiting continues; a terminator keyword — matched
case-insensitively (upper-cased) against the fixed synonym set
`PRONTO`, `DONE`, `FIM`, `FINISH` — arriving when at least one part has
accumulated returns all parts joined in arrival order with newline
separators; in particular parts "Hello", "World" followed by "PRONTO"
yield exactly the answer with a newline between the words. -/
theorem multipart_accumulate_and_terminate
    (st : MultipartState) (u u2 : TgUpdate) (m m2 : TgMessage) (text term : String)
    (hm : u.message = some m) (hchat : m.chatId = st.session.chatId)
    (hdoc : m.document = none)
    (htext : pyStrip (m.text.getD "") = text)
    (hne : text ≠ "")
    (hnc : cancelKeywords.contains (pyLower text) = false)
    (hnt : terminatorKeywords.contains (pyUpper text) = false)
    (hm2 : u2.message = some m2) (hchat2 : m2.chatId = st.session.chatId)
    (hdoc2 : m2.document = none)
    (hterm : pyStrip (m2.text.getD "") = term)
    (hne2 : term ≠ "")
    (hnc2 : cancelKeywords.contains (pyLower term) = false)
    (hyt : terminatorKeywords.contains (pyUpper term) = true)
    (hparts : st.parts ≠ []) :
    multipartHandle st u =
      ({ session := { st.session with updateOffset := u.updateId + 1 },
         parts := st.parts ++ [text] }, none) ∧
    multipartHandle st u2 =
      ({ st with session := { st.session with updateOffset := u2.updateId + 1 } },
       some (.ok (String.intercalate "\n" st.parts))) ∧
    (collect_script_multipart { session := exSession, parts := [] }
      [⟨1, some (exTextMsg "Hello")⟩, ⟨2, some (exTextMsg "World")⟩,
       ⟨3, some (exTextMsg "PRONTO")⟩]).2 = .ok (some "Hello\nWorld") := by
  refine ⟨?_, ?_, rfl⟩
  · unfold multipartHandle
    rw [hm]
    dsimp only
    rw [if_neg (fun hx => hx hchat), hdoc]
    unfold multipartText
    dsimp only
    rw [htext]
    rw [if_neg hne]
    rw [if_neg (fun hx => Bool.false_ne_true (hnc.symm.trans hx))]
    rw [if_neg (fun hx => Bool.false_ne_true (hnt.symm.trans hx))]
  · unfold multipartHandle
    rw [hm2]
    dsimp only
    rw [if_neg (fun hx => hx hchat2), hdoc2]
    unfold multipartText
    dsimp only
    rw [hterm]
    rw [if_neg hne2]
    rw [if_neg (fun hx => Bool.false_ne_true (hnc2.symm.trans hx))]
    rw [if_pos hyt]
    rw [if_neg (fun hx => hparts (List.isEmpty_iff.mp hx))]

theorem multipart_accumulate_and_terminate_witness :
    multipartHandle { session := exSession, parts := ["Hello"] }
        ⟨2, some (exTextMsg "World")⟩ =
      ({ session := { exSession with updateOffset := 3 },
         parts := ["Hello"] ++ ["World"] }, none) ∧
    multipartHandle { session := exSession, parts := ["Hello"] }
        ⟨3, some (exTextMsg "pronto")⟩ =
      ({ session := { exSession with updateOffset := 4 },
         parts := ["Hello"] },
       some (.ok (String.intercalate "\n" ["Hello"]))) ∧
    (collect_script_multipart { session := exSession, parts := [] }
      [⟨1, some (exTextMsg "Hello")⟩, ⟨2, some (exTextMsg "World")⟩,
       ⟨3, some (exTextMsg "PRONTO")⟩]).2 = .ok (some "Hello\nWorld") :=
  multipart_accumulate_and_terminate
    { session := exSession, parts := ["Hello"] }
    ⟨2, some (exTextMsg "World")⟩ ⟨3, some (exTextMsg "pronto")⟩
    (exTextMsg "World") (exTextMsg "pronto") "World" "pronto"
    rfl rfl rfl rfl (by decide) rfl rfl
    rfl rfl rfl rfl (by decide) rfl rfl (by decide)

/-! ### Timeout semantics (C7) -/

theorem waitHandleUpdate_quiet (s : Session) (ts : String) (u : TgUpdate)
    (h : quietUpdate s.chatId u = true) :
    waitHandleUpdate s ts u = ({ s with updateOffset := u.updateId + 1 }, none) := by
  unfold waitHandleUpdate
  unfold quietUpdate at h
  cases hm : u.message with
  | none => rfl
  | some m =>
    rw [hm] at h
    dsimp only at h ⊢
    by_cases hch : m.chatId ≠ s.chatId
    · rw [if_pos hch]
    · rw [if_neg hch]
      have hcheq : m.chatId = s.chatId := not_not.mp hch
      have hstrip : pyStrip (m.text.getD "") = "" := by
        rw [show (m.chatId != s.chatId) = false by simp [hcheq]] at h
        simpa using h
      rw [hstrip]
      rw [if_neg (show ¬(cancelKeywords.contains (pyLower "") = true) by decide)]
      rw [if_neg (show ¬("" ≠ "") by simp)]

theorem waitProcessUpdates_quiet (ts : String) (us : List TgUpdate) :
    ∀ s : Session, (∀ u ∈ us, quietUpdate s.chatId u = true) →
      (waitProcessUpdates s ts us).2 = none ∧
      (waitProcessUpdates s ts us).1.chatId = s.chatId := by
  induction us with
  | nil =>
    intro s _
    exact ⟨rfl, rfl⟩
  | cons u rest ih =>
    intro s h
    rw [waitProcessUpdates]
    rw [waitHandleUpdate_quiet s ts u (h u (List.mem_cons_self u rest))]
    dsimp only
    exact ih _ (fun v hv => h v (List.mem_cons_of_mem u hv))

theorem wait_for_message_quiet (timeout : Nat) (ts : String)
    (sched : List (Nat × List TgUpdate)) :
    ∀ s : Session, (∀ p ∈ sched, ∀ u ∈ p.2, quietUpdate s.chatId u = true) →
      (wait_for_message timeout s ts sched).2 = .ok none := by
  induction sched with
  | nil => intro s _; rfl
  | cons p rest ih =>
    intro s h
    rcases p with ⟨e, batch⟩
    rw [wait_for_message]
    by_cases he : e < timeout
    · rw [if_pos he]
      obtain ⟨h1, h2⟩ := waitProcessUpdates_quiet ts batch s
        (fun u hu => h (e, batch) (List.mem_cons_self _ _) u hu)
      rcases hh : waitProcessUpdates s ts batch with ⟨s1, ev⟩
      rw [hh] at h1 h2
      cases ev with
      | none =>
        dsimp only
        apply ih s1
        intro q hq u hu
        rw [show s1.chatId = s.chatId from h2]
        exact h q (List.mem_cons_of_mem _ hq) u hu
      | some e2 => exact absurd h1 (by simp)
    · rw [if_neg he]

/-- C7: a timeout is an explicit absent outcome, not an error: when no
answer arrives at any poll before the timeout the wait returns the
absent value (`Except.ok none`) normally; an answer found at a poll
whose elapsed time is strictly less than the timeout is returned as
received; and a poll at elapsed time at or past the timeout is never
observed — the loop exits with the absent value, leaving the fallback
to the caller. -/
theorem timeout_absent_outcome (timeout : Nat) (ts : String) (s s1 : Session)
    (e₁ e₂ : Nat) (batch batch2 : List TgUpdate)
    (rest rest2 sched : List (Nat × List TgUpdate)) (t : String)
    (hq : ∀ p ∈ sched, ∀ u ∈ p.2, quietUpdate s.chatId u = true)
    (hlt : e₁ < timeout)
    (hans : waitProcessUpdates s ts batch = (s1, some (.received t)))
    (hge : timeout ≤ e₂) :
    (wait_for_message timeout s ts sched).2 = .ok none ∧
    wait_for_message timeout s ts ((e₁, batch) :: rest) = (s1, .ok (some t)) ∧
    wait_for_message timeout s ts ((e₂, batch2) :: rest2) = (s, .ok none) := by
  refine ⟨wait_for_message_quiet timeout ts sched s hq, ?_, ?_⟩
  · rw [wait_for_message, if_pos hlt, hans]
  · rw [wait_for_message, if_neg (Nat.not_lt.mpr hge)]

theorem timeout_absent_outcome_witness :
    (wait_for_message 600 exSession "t0"
        [(0, []), (300, [⟨1, some (exForeignMsg "late")⟩])]).2 = .ok none ∧
    wait_for_message 600 exSession "t0"
        [(599, [⟨2, some (exTextMsg "answer")⟩])] =
      ({ chatId := "7", updateOffset := 3, cancelled := false, markerFile := none },
       .ok (some "answer")) ∧
    wait_for_message 600 exSession "t0"
        [(600, [⟨2, some (exTextMsg "answer")⟩])] =
      (exSession, .ok none) :=
  timeout_absent_outcome 600 "t0" exSession
    { chatId := "7", updateOffset := 3, cancelled := false, markerFile := none }
    599 600 [⟨2, some (exTextMsg "answer")⟩] [⟨2, some (exTextMsg "answer")⟩]
    [] [] [(0, []), (300, [⟨1, some (exForeignMsg "late")⟩])] "answer"
    (by decide) (by decide) rfl (by decide)

/-! ### Reminder buckets (C5) -/

theorem reminderBuckets_sorted (interval : Nat) (polls : List Nat) :
    ∀ last : Nat, (reminderBuckets interval last polls).Pairwise (· < ·) ∧
      ∀ b ∈ reminderBuckets interval last polls, last < b := by
  induction polls with
  | nil => intro last; exact ⟨List.Pairwise.nil, by simp [reminderBuckets]⟩
  | cons e rest ih =>
    intro last
    rw [reminderBuckets]
    split_ifs with h
    · obtain ⟨hp, hb⟩ := ih (e / interval)
      refine ⟨List.pairwise_cons.mpr ⟨hb, hp⟩, ?_⟩
      intro b hbmem
      rcases List.mem_cons.mp hbmem with rfl | hbm
      · exact h
      · exact Nat.lt_trans h (hb b hbm)
    · exact ih last

theorem reminderBuckets_mem (interval : Nat) (polls : List Nat) :
    ∀ last : Nat, ∀ b ∈ reminderBuckets interval last polls,
      ∃ e ∈ polls, e / interval = b := by
  induction polls with
  | nil =>
    intro last b hb
    simp [reminderBuckets] at hb
  | cons e rest ih =>
    intro last b hb
    rw [reminderBuckets] at hb
    split_ifs at hb with h
    · rcases List.mem_cons.mp hb with rfl | hbm
      · exact ⟨e, List.mem_cons_self e rest, rfl⟩
      · obtain ⟨e2, he2, heq⟩ := ih _ b hbm
        exact ⟨e2, List.mem_cons_of_mem e he2, heq⟩
    · obtain ⟨e2, he2, heq⟩ := ih _ b hb
      exact ⟨e2, List.mem_cons_of_mem e he2, heq⟩

theorem reminderBuckets_complete (interval : Nat) (polls : List Nat) :
    polls.Pairwise (· ≤ ·) → ∀ last : Nat, ∀ e ∈ polls, last < e / interval →
      e / interval ∈ reminderBuckets interval last polls := by
  induction polls with
  | nil =>
    intro _ last e he
    simp at he
  | cons a rest ih =>
    intro hmono last e he hgt
    have hpw := List.pairwise_cons.mp hmono
    rw [reminderBuckets]
    rcases List.mem_cons.mp he with rfl | hem
    · rw [if_pos hgt]
      exact List.mem_cons_self _ _
    · split_ifs with h
      · by_cases heq : e / interval = a / interval
        · rw [heq]
          exact List.mem_cons_self _ _
        · have hle : a / interval ≤ e / interval :=
            Nat.div_le_div_right (hpw.1 e hem)
          have hlt2 : a / interval < e / interval :=
            lt_of_le_of_ne hle (fun hx => heq hx.symm)
          exact List.mem_cons_of_mem _ (ih hpw.2 _ e hem hlt2)
      · exact ih hpw.2 _ e hem hgt

/-- C5: reminder notices in a wait with a 600-second timeout and a
120-second reminder interval.  For every polling cadence in which time
moves forward (elapsed values non-decreasing) and every poll happens
before the timeout: the buckets at which reminders are sent are strictly
increasing, so at most one reminder is ever sent per elapsed-time bucket,
and every reminder falls in one of the four buckets starting at 120,
240, 360 and 480 seconds; moreover, whenever the cadence visits each of
the four buckets at least once (as the 10-to-15-second long-poll cadence
of the code does), exactly 4 reminders are sent — one per bucket. -/
theorem reminders_exactly_four (polls : List Nat)
    (hmono : polls.Pairwise (· ≤ ·))
    (hlt : ∀ e ∈ polls, e < 600) :
    ((reminderBuckets 120 0 polls).Pairwise (· < ·) ∧
     ∀ b ∈ reminderBuckets 120 0 polls, 1 ≤ b ∧ b ≤ 4) ∧
    ((∀ k ∈ [1, 2, 3, 4], ∃ e ∈ polls, e / 120 = k) →
      (∀ k, k ∈ reminderBuckets 120 0 polls ↔ (1 ≤ k ∧ k ≤ 4)) ∧
      (reminderBuckets 120 0 polls).length = 4) := by
  obtain ⟨hsorted, hgt0⟩ := reminderBuckets_sorted 120 polls 0
  have hmem4 : ∀ b ∈ reminderBuckets 120 0 polls, 1 ≤ b ∧ b ≤ 4 := by
    intro b hb
    obtain ⟨e, he, heq⟩ := reminderBuckets_mem 120 polls 0 b hb
    refine ⟨hgt0 b hb, ?_⟩
    rw [← heq]
    calc e / 120 ≤ 599 / 120 := Nat.div_le_div_right (Nat.le_of_lt_succ (hlt e he))
      _ = 4 := by norm_num
  refine ⟨⟨hsorted, hmem4⟩, ?_⟩
  intro hvisit
  have hiff : ∀ k, k ∈ reminderBuckets 120 0 polls ↔ (1 ≤ k ∧ k ≤ 4) := by
    intro k
    constructor
    · exact hmem4 k
    · rintro ⟨h1, h4⟩
      have hk : k ∈ [1, 2, 3, 4] := by interval_cases k <;> decide
      obtain ⟨e, he, heq⟩ := hvisit k hk
      rw [← heq]
      exact reminderBuckets_complete 120 polls hmono 0 e he (by rw [heq]; exact h1)
  refine ⟨hiff, ?_⟩
  have hnodup : (reminderBuckets 120 0 polls).Nodup := hsorted.nodup
  have hfin : (reminderBuckets 120 0 polls).toFinset = Finset.Icc 1 4 := by
    ext k
    simp only [List.mem_toFinset, Finset.mem_Icc]
    exact hiff k
  have hlen := List.toFinset_card_of_nodup hnodup
  rw [hfin] at hlen
  rw [← hlen]
  rw [Nat.card_Icc]

theorem reminders_exactly_four_witness :
    (([3, 50, 125, 250, 380, 500, 599] : List Nat).Pairwise (· ≤ ·) ∧
     ∀ e ∈ ([3, 50, 125, 250, 380, 500, 599] : List Nat), e < 600) ∧
    (((reminderBuckets 120 0 [3, 50, 125, 250, 380, 500, 599]).Pairwise (· < ·) ∧
      ∀ b ∈ reminderBuckets 120 0 [3, 50, 125, 250, 380, 500, 599],
        1 ≤ b ∧ b ≤ 4) ∧
     ((∀ k ∈ [1, 2, 3, 4],
        ∃ e ∈ ([3, 50, 125, 250, 380, 500, 599] : List Nat), e / 120 = k) →
       (∀ k, k ∈ reminderBuckets 120 0 [3, 50, 125, 250, 380, 500, 599] ↔
         (1 ≤ k ∧ k ≤ 4)) ∧
       (reminderBuckets 120 0 [3, 50, 125, 250, 380, 500, 599]).length = 4)) :=
  ⟨⟨by decide, by decide⟩,
   reminders_exactly_four [3, 50, 125, 250, 380, 500, 599] (by decide) (by decide)⟩

/-! ### segment_audio (C8) -/

/-- C8: for audio of total duration `T` milliseconds with `T > 0` and
segment length 30000 ms, `segment_audio` produces exactly
`ceil(T / 30000)` segments (the count `(T + 30000 - 1) / 30000`, pinned
by `T ≤ 30000·count < T + 30000`), whose `[startMs, endMs)` intervals
are contiguous and non-overlapping, start at 0, end exactly at `T`,
each have positive duration of at most 30000 ms, and whose indices are
numbered consecutively from 1. -/
theorem segment_audio_partition (videoId : String) (T : Nat) (hT : 0 < T) :
    (segment_audio videoId T 30000).length = (T + 30000 - 1) / 30000 ∧
    T ≤ 30000 * (segment_audio videoId T 30000).length ∧
    30000 * ((segment_audio videoId T 30000).length - 1) < T ∧
    (∀ j (h : j < (segment_audio videoId T 30000).length),
      ((segment_audio videoId T 30000).get ⟨j, h⟩).index = j + 1 ∧
      ((segment_audio videoId T 30000).get ⟨j, h⟩).startMs = j * 30000 ∧
      ((segment_audio videoId T 30000).get ⟨j, h⟩).endMs ≤ T ∧
      ((segment_audio videoId T 30000).get ⟨j, h⟩).startMs <
        ((segment_audio videoId T 30000).get ⟨j, h⟩).endMs ∧
      ((segment_audio videoId T 30000).get ⟨j, h⟩).endMs -
        ((segment_audio videoId T 30000).get ⟨j, h⟩).startMs ≤ 30000) ∧
    (∀ j (h : j + 1 < (segment_audio videoId T 30000).length),
      ((segment_audio videoId T 30000).get ⟨j, Nat.lt_of_succ_lt h⟩).endMs =
        ((segment_audio videoId T 30000).get ⟨j + 1, h⟩).startMs) ∧
    (∀ h0 : 0 < (segment_audio videoId T 30000).length,
      ((segment_audio videoId T 30000).get ⟨0, h0⟩).startMs = 0) ∧
    (∀ hl : (segment_audio videoId T 30000).length - 1 <
        (segment_audio videoId T 30000).length,
      ((segment_audio videoId T 30000).get
        ⟨(segment_audio videoId T 30000).length - 1, hl⟩).endMs = T) := by
  have hlen : (segment_audio videoId T 30000).length = (T + 30000 - 1) / 30000 := by
    simp [segment_audio]
  have hidx : ∀ j (h : j < (segment_audio videoId T 30000).length),
      (segment_audio videoId T 30000).get ⟨j, h⟩ =
        { index := j + 1,
          path := "segments/" ++ videoId ++ "_segment_" ++ pad3 (j + 1) ++ ".mp3",
          startMs := j * 30000,
          endMs := min ((j + 1) * 30000) T } := by
    intro j h
    simp [segment_audio]
  refine ⟨hlen, ?_, ?_, ?_, ?_, ?_, ?_⟩
  · rw [hlen]
    omega
  · rw [hlen]
    omega
  · intro j h
    have hj : j < (T + 30000 - 1) / 30000 := by
      rw [← hlen]
      exact h
    rw [hidx j h]
    refine ⟨rfl, rfl, ?_, ?_, ?_⟩ <;> dsimp only <;> omega
  · intro j h
    have hj : j + 1 < (T + 30000 - 1) / 30000 := by
      rw [← hlen]
      exact h
    rw [hidx j (Nat.lt_of_succ_lt h), hidx (j + 1) h]
    dsimp only
    omega
  · intro h0
    rw [hidx 0 h0]
  · intro hl
    rw [hidx _ hl]
    dsimp only
    rw [hlen]
    omega

theorem segment_audio_partition_witness :
    0 < 65000 ∧
    ((segment_audio "vid" 65000 30000).length = (65000 + 30000 - 1) / 30000 ∧
    65000 ≤ 30000 * (segment_audio "vid" 65000 30000).length ∧
    30000 * ((segment_audio "vid" 65000 30000).length - 1) < 65000 ∧
    (∀ j (h : j < (segment_audio "vid" 65000 30000).length),
      ((segment_audio "vid" 65000 30000).get ⟨j, h⟩).index = j + 1 ∧
      ((segment_audio "vid" 65000 30000).get ⟨j, h⟩).startMs = j * 30000 ∧
      ((segment_audio "vid" 65000 30000).get ⟨j, h⟩).endMs ≤ 65000 ∧
      ((segment_audio "vid" 65000 30000).get ⟨j, h⟩).startMs <
        ((segment_audio "vid" 65000 30000).get ⟨j, h⟩).endMs ∧
      ((segment_audio "vid" 65000 30000).get ⟨j, h⟩).endMs -
        ((segment_audio "vid" 65000 30000).get ⟨j, h⟩).startMs ≤ 30000) ∧
    (∀ j (h : j + 1 < (segment_audio "vid" 65000 30000).length),
      ((segment_audio "vid" 65000 30000).get ⟨j, Nat.lt_of_succ_lt h⟩).endMs =
        ((segment_audio "vid" 65000 30000).get ⟨j + 1, h⟩).startMs) ∧
    (∀ h0 : 0 < (segment_audio "vid" 65000 30000).length,
      ((segment_audio "vid" 65000 30000).get ⟨0, h0⟩).startMs = 0) ∧
    (∀ hl : (segment_audio "vid" 65000 30000).length - 1 <
        (segment_audio "vid" 65000 30000).length,
      ((segment_audio "vid" 65000 30000).get
        ⟨(segment_audio "vid" 65000 30000).length - 1, hl⟩).endMs = 65000)) :=
  ⟨by decide, segment_audio_partition "vid" 65000 (by decide)⟩

/-! ### create_video shadowing (C9) -/

/-- C9: the two textual definitions of `VideoProducer.create_video` are
not equivalent, and the later definition shadows the earlier one: the
class dictionary resolves `create_video` to the second definition, which
renders and returns the output path `output/<video_id>.mp4`, while the
first definition builds the per-segment clips but falls off the end of
its body and returns `None`; on every input the two disagree, and the
first is unreachable through the method table. -/
theorem create_video_shadowing (args : CreateVideoArgs) :
    lookupMethod "create_video" = some create_video_v2 ∧
    create_video_v1 args = none ∧
    create_video_v2 args = some ("output/" ++ args.videoId ++ ".mp4") ∧
    create_video_v1 args ≠ create_video_v2 args := by
  refine ⟨rfl, rfl, rfl, ?_⟩
  simp [create_video_v1, create_video_v2]

/-! ### parse_production_message (C10) -/

theorem stripList_idem (l : List Char) : stripList (stripList l) = stripList l := by
  unfold stripList
  have hd : ((l.dropWhile pyIsSpace).rdropWhile pyIsSpace).dropWhile pyIsSpace =
      (l.dropWhile pyIsSpace).rdropWhile pyIsSpace := by
    rcases hr : (l.dropWhile pyIsSpace).rdropWhile pyIsSpace with _ | ⟨a, t⟩
    · rfl
    · obtain ⟨suf, hsuf⟩ := List.rdropWhile_prefix pyIsSpace (l.dropWhile pyIsSpace)
      rw [hr] at hsuf
      have hpa : pyIsSpace a ≠ true := by
        intro hpa2
        have hm2 := List.dropWhile_idempotent pyIsSpace l
        rw [← hsuf, List.cons_append, List.dropWhile_cons, if_pos hpa2] at hm2
        have hlen := congrArg List.length hm2
        have hle := (List.dropWhile_suffix (l := t ++ suf) pyIsSpace).sublist.length_le
        simp only [List.length_cons] at hlen
        omega
      rw [List.dropWhile_cons, if_neg hpa]
  rw [hd, List.rdropWhile_idempotent]

theorem parseLine_skip_no_section (d : ParsedProduction) (lne : List Char)
    (h : isHeaderLine lne = false) :
    parseLine (none, d) lne = (none, d) := by
  unfold isHeaderLine at h
  simp only [Bool.or_eq_false_iff] at h
  obtain ⟨⟨⟨h1, h2⟩, h3⟩, h4⟩ := h
  unfold parseLine
  dsimp only
  rw [if_neg (fun hx => Bool.false_ne_true (h1.symm.trans hx)),
      if_neg (fun hx => Bool.false_ne_true (h2.symm.trans hx)),
      if_neg (fun hx => Bool.false_ne_true (h3.symm.trans hx)),
      if_neg (fun hx => Bool.false_ne_true (h4.symm.trans hx))]

theorem parseLine_title_discards (d : ParsedProduction) (lne : List Char)
    (h : isHeaderLine lne = false) :
    parseLine (some .title, d) lne = (some .title, d) := by
  unfold isHeaderLine at h
  simp only [Bool.or_eq_false_iff] at h
  obtain ⟨⟨⟨h1, h2⟩, h3⟩, h4⟩ := h
  unfold parseLine
  dsimp only
  rw [if_neg (fun hx => Bool.false_ne_true (h1.symm.trans hx)),
      if_neg (fun hx => Bool.false_ne_true (h2.symm.trans hx)),
      if_neg (fun hx => Bool.false_ne_true (h3.symm.trans hx)),
      if_neg (fun hx => Bool.false_ne_true (h4.symm.trans hx))]

theorem parseLine_tags_discards (d : ParsedProduction) (lne : List Char)
    (h : isHeaderLine lne = false) :
    parseLine (some .tags, d) lne = (some .tags, d) := by
  unfold isHeaderLine at h
  simp only [Bool.or_eq_false_iff] at h
  obtain ⟨⟨⟨h1, h2⟩, h3⟩, h4⟩ := h
  unfold parseLine
  dsimp only
  rw [if_neg (fun hx => Bool.false_ne_true (h1.symm.trans hx)),
      if_neg (fun hx => Bool.false_ne_true (h2.symm.trans hx)),
      if_neg (fun hx => Bool.false_ne_true (h3.symm.trans hx)),
      if_neg (fun hx => Bool.false_ne_true (h4.symm.trans hx))]

theorem parseLine_script_appends (d : ParsedProduction) (lne : List Char)
    (h : isHeaderLine lne = false) :
    parseLine (some .script, d) lne =
      (some .script, { d with script := d.script ++ '\n' :: stripList lne }) := by
  unfold isHeaderLine at h
  simp only [Bool.or_eq_false_iff] at h
  obtain ⟨⟨⟨h1, h2⟩, h3⟩, h4⟩ := h
  unfold parseLine
  dsimp only
  rw [if_neg (fun hx => Bool.false_ne_true (h1.symm.trans hx)),
      if_neg (fun hx => Bool.false_ne_true (h2.symm.trans hx)),
      if_neg (fun hx => Bool.false_ne_true (h3.symm.trans hx)),
      if_neg (fun hx => Bool.false_ne_true (h4.symm.trans hx))]

theorem parseLine_description_appends (d : ParsedProduction) (lne : List Char)
    (h : isHeaderLine lne = false) :
    parseLine (some .description, d) lne =
      (some .description,
       { d with description := d.description ++ '\n' :: stripList lne }) := by
  unfold isHeaderLine at h
  simp only [Bool.or_eq_false_iff] at h
  obtain ⟨⟨⟨h1, h2⟩, h3⟩, h4⟩ := h
  unfold parseLine
  dsimp only
  rw [if_neg (fun hx => Bool.false_ne_true (h1.symm.trans hx)),
      if_neg (fun hx => Bool.false_ne_true (h2.symm.trans hx)),
      if_neg (fun hx => Bool.false_ne_true (h3.symm.trans hx)),
      if_neg (fun hx => Bool.false_ne_true (h4.symm.trans hx))]

theorem parse_skips_before_header (ls : List (List Char)) (d : ParsedProduction) :
    ls.foldl parseLine (none, d) =
      (ls.dropWhile (fun lne => !isHeaderLine lne)).foldl parseLine (none, d) := by
  induction ls with
  | nil => rfl
  | cons a t ih =>
    by_cases h : isHeaderLine a = true
    · rw [List.dropWhile_cons, if_neg (by simp [h])]
    · have hf : isHeaderLine a = false := by simpa using h
      rw [List.dropWhile_cons, if_pos (by simp [hf])]
      rw [List.foldl_cons, parseLine_skip_no_section d a hf]
      exact ih

/-- C10: for every input, `parse_production_message` returns a record
with exactly the four fields script, title, description and tags
(`tags` a list by construction); the returned script and description
carry no leading or trailing whitespace; lines appearing before any
section header are discarded (folding the lines equals folding after
dropping the leading non-header lines); and continuation lines are
appended (with a newline) only in the script and description sections —
in the title and tags sections, and before any section, they are
discarded. -/
theorem parse_production_message_spec :
    (∀ text : List Char,
      stripList (parse_production_message text).script =
        (parse_production_message text).script ∧
      stripList (parse_production_message text).description =
        (parse_production_message text).description) ∧
    (∀ (ls : List (List Char)) (d : ParsedProduction),
      ls.foldl parseLine (none, d) =
        (ls.dropWhile (fun lne => !isHeaderLine lne)).foldl parseLine (none, d)) ∧
    (∀ (d : ParsedProduction) (lne : List Char), isHeaderLine lne = false →
      parseLine (none, d) lne = (none, d) ∧
      parseLine (some .title, d) lne = (some .title, d) ∧
      parseLine (some .tags, d) lne = (some .tags, d) ∧
      parseLine (some .script, d) lne =
        (some .script, { d with script := d.script ++ '\n' :: stripList lne }) ∧
      parseLine (some .description, d) lne =
        (some .description,
         { d with description := d.description ++ '\n' :: stripList lne })) := by
  refine ⟨?_, parse_skips_before_header, ?_⟩
  · intro text
    exact ⟨stripList_idem _, stripList_idem _⟩
  · intro d lne h
    exact ⟨parseLine_skip_no_section d lne h, parseLine_title_discards d lne h,
           parseLine_tags_discards d lne h, parseLine_script_appends d lne h,
           parseLine_description_appends d lne h⟩

theorem parse_production_message_spec_witness :
    (isHeaderLine "hello world".data = false) ∧
    (parseLine (none, emptyParsed) "hello world".data = (none, emptyParsed) ∧
     parseLine (some .title, emptyParsed) "hello world".data =
       (some .title, emptyParsed) ∧
     parseLine (some .tags, emptyParsed) "hello world".data =
       (some .tags, emptyParsed) ∧
     parseLine (some .script, emptyParsed) "hello world".data =
       (some .script,
        { emptyParsed with
            script := emptyParsed.script ++ '\n' :: stripList "hello world".data }) ∧
     parseLine (some .description, emptyParsed) "hello world".data =
       (some .description,
        { emptyParsed with
            description :=
              emptyParsed.description ++ '\n' :: stripList "hello world".data })) :=
  ⟨by decide,
   parse_production_message_spec.2.2 emptyParsed "hello world".data (by decide)⟩

end WW2
